import Mathlib

/-!
Shallow embedding of the lead-qualification core of the `sabbar-project`
repository (files `app/ai/agent.py`, `app/ai/tools.py`, `app/ai/workflow.py`,
`app/ai/state.py`), together with theorems settling the frozen claims about
its specification.

Conventions of the embedding:
* Python strings are modelled as `List Char` (converted from Lean `String`
  at the boundary); Python `str.lower()` is modelled for the Latin-1 letters
  actually used by the keyword tables.
* Python `dict`s with a fixed key set are modelled as structures whose
  fields are `Option`-typed; a key that is never inserted is `none`.
* Python truthiness (`if x:` on `None`, `0`, `""`, `[]`) is modelled by the
  explicit `pyTruthy*` functions below.
* The regular expressions of the source are modelled by hand-written
  leftmost-match scanners (`scanFirst` tries every start position, like the
  `re` engine; each per-position matcher reproduces the greedy semantics of
  the specific pattern, which is backtracking-free for these patterns except
  for the `\d{1,3}` counter of the grouped-thousands pattern, reproduced by
  trying 3, then 2, then 1 digits).
* Fallible Python operations (`int(...)`) are modelled in `Option` / the
  `Except` monad; a `try/except: pass` around them is modelled by handling
  the `none` locally.
* Calls to external collaborators (the LLM reply, the database rows returned
  by a property search, the database-generated id of an inserted lead, and
  wall-clock timestamps) are passed in as explicit parameters.
-/

namespace Sabbar

/-! ## Character classes and Python string primitives -/

/-- ASCII digit test, the model of the regex class `\d` on this input
alphabet. -/
def isDigitC (c : Char) : Bool := c.isDigit

/-- Whitespace test, the model of the regex class `\s` for the whitespace
characters that can occur here. -/
def isSpaceC (c : Char) : Bool :=
  c = ' ' || c = '\t' || c = '\n' || c = '\r' || c = '\x0b' || c = '\x0c'

/-- Word-character test, the model of the regex class `\w` for Python `str`
patterns: ASCII alphanumerics, underscore, the Latin-1 letters, and the
Latin-1 superscript digits (which are alphanumeric in Unicode, hence `\w`
in Python — relevant because `²` after `m` defeats the `m\b` boundary). -/
def isWordC (c : Char) : Bool :=
  c.isAlphanum || c = '_' ||
  ('À' ≤ c && c ≤ 'ÿ' && c ≠ '×' && c ≠ '÷') ||
  c = '¹' || c = '²' || c = '³' || c = 'ª' || c = 'º' || c = 'µ'

/-- Model of Python `str.lower()` on the ASCII and Latin-1 ranges used by the
keyword tables of `_extract_criteria`. -/
def pyLowerChar (c : Char) : Char :=
  if 'A' ≤ c && c ≤ 'Z' then Char.ofNat (c.toNat + 32)
  else if 'À' ≤ c && c ≤ 'Þ' && c ≠ '×' then Char.ofNat (c.toNat + 32)
  else c

/-- Lowercasing of a whole text. -/
def pyLower (l : List Char) : List Char := l.map pyLowerChar

/-- Test that `p` is a leading prefix of `l` (model of `str.startswith` /
anchoring a literal at the current scan position). -/
def beginsWith : List Char → List Char → Bool
  | [], _ => true
  | _ :: _, [] => false
  | p :: ps, c :: cs => p == c && beginsWith ps cs

/-- Model of the Python substring test `needle in hay`. -/
def containsSub (p : List Char) : List Char → Bool
  | [] => beginsWith p []
  | c :: cs => beginsWith p (c :: cs) || containsSub p cs

/-- Model of `any(kw in text for kw in kws)` over a keyword list. -/
def containsAnyKw (l : List Char) (kws : List String) : Bool :=
  kws.any fun k => containsSub k.data l

/-- Model of Python `str.find`: index of the first occurrence of `g`, `-1`
when absent. -/
def findIdxAux (g : List Char) : Nat → List Char → Int
  | i, [] => if beginsWith g [] then (i : Int) else -1
  | i, c :: cs => if beginsWith g (c :: cs) then (i : Int) else findIdxAux g (i + 1) cs

/-- First-occurrence index of `g` in `t` (`-1` when absent), as `text.find`. -/
def pyFindIdx (t g : List Char) : Int := findIdxAux g 0 t

/-- Remove every occurrence of the nonempty literal `pat` (model of
`str.replace(pat, "")`); fuelled by the text length, which suffices because
each removal consumes at least one character. -/
def removeAllF (pat : List Char) : Nat → List Char → List Char
  | 0, l => l
  | _ + 1, [] => []
  | fuel + 1, c :: cs =>
    if pat ≠ [] && beginsWith pat (c :: cs) then
      removeAllF pat fuel ((c :: cs).drop pat.length)
    else
      c :: removeAllF pat fuel cs

/-- Model of `str.replace(pat, "")`. -/
def removeAll (pat l : List Char) : List Char := removeAllF pat l.length l

/-- Numeric value of a digit string. -/
def digitsVal (l : List Char) : Nat :=
  l.foldl (fun a c => a * 10 + (c.toNat - '0'.toNat)) 0

/-- Model of Python `int(s)` restricted to the shapes occurring here: succeeds
exactly on a nonempty all-digit string, fails (raises `ValueError`)
otherwise. -/
def pyInt? (l : List Char) : Option Nat :=
  if l ≠ [] && l.all isDigitC then some (digitsVal l) else none

/-- Leftmost-match driver: try the per-position matcher `f` at every start
position from left to right, as the `re` engine does for `findall`, and
return the first capture. -/
def scanFirst (f : List Char → Option (List Char)) : List Char → Option (List Char)
  | [] => none
  | c :: cs =>
    match f (c :: cs) with
    | some r => some r
    | none => scanFirst f cs

/-! ## Python truthiness -/

/-- Truthiness of an optional string: `None` and `""` are falsy. -/
def pyTruthyStr : Option String → Bool
  | none => false
  | some s => !s.isEmpty

/-- Truthiness of an optional integer: `None` and `0` are falsy. -/
def pyTruthyNat : Option Nat → Bool
  | none => false
  | some n => n != 0

/-- Truthiness of an optional list: `None` and `[]` are falsy. -/
def pyTruthyList : Option (List String) → Bool
  | none => false
  | some l => !l.isEmpty

/-- Model of the Python expression `a or b` on optional strings (used for
`lead_id or conversation_state["lead_id"]`). -/
def pyOrStr (a b : Option String) : Option String :=
  if pyTruthyStr a then a else b

/-- Model of `dict.update` on one `Option`-modelled key: the new value wins
when the key is present in the update, the old one is kept otherwise. -/
def optOr {α : Type} : Option α → Option α → Option α
  | some v, _ => some v
  | none, o => o

/-! ## Per-position matchers for the regexes of `_extract_criteria`
(`app/ai/agent.py`, lines 536-574) -/

/-- Matcher at one position for budget pattern (a),
`(\d+)\s*(?:millions?|m\b)`: a greedy digit run, optional whitespace, then
either the literal `million` (the optional `s` does not affect the capture)
or `m` at a word boundary; the capture is the digit run. -/
def pat1At (l : List Char) : Option (List Char) :=
  let ds := l.takeWhile isDigitC
  if ds.isEmpty then none
  else
    let rest := (l.drop ds.length).dropWhile isSpaceC
    if beginsWith "million".data rest then some ds
    else
      match rest with
      | 'm' :: r =>
        match r with
        | [] => some ds
        | c :: _ => if isWordC c then none else some ds
      | _ => none

/-- Greedy repetition of `(?:\s?\d{3})` for budget pattern (b): returns the
number of groups consumed and the number of characters they cover. Fuelled by
the list length; each group consumes at least three characters, so the fuel
never runs out before the input does. -/
def pat2GroupsF : Nat → List Char → Nat × Nat
  | 0, _ => (0, 0)
  | fuel + 1, l =>
    match l with
    | [] => (0, 0)
    | a :: rest =>
      if isSpaceC a then
        match rest with
        | x :: y :: z :: r2 =>
          if isDigitC x && isDigitC y && isDigitC z then
            let p := pat2GroupsF fuel r2
            (p.1 + 1, p.2 + 4)
          else (0, 0)
        | _ => (0, 0)
      else
        match l with
        | x :: y :: z :: r2 =>
          if isDigitC x && isDigitC y && isDigitC z then
            let p := pat2GroupsF fuel r2
            (p.1 + 1, p.2 + 3)
          else (0, 0)
        | _ => (0, 0)

/-- Greedy repetition of `(?:\s?\d{3})`. -/
def pat2Groups (l : List Char) : Nat × Nat := pat2GroupsF l.length l

/-- One backtracking alternative of budget pattern (b): `\d{1,3}` takes
exactly `a` digits, then at least two `(?:\s?\d{3})` groups must follow;
the capture is the whole match. -/
def pat2Try (a : Nat) (l : List Char) : Option (List Char) :=
  let ds := l.take a
  if ds.length = a && ds.all isDigitC then
    let p := pat2Groups (l.drop a)
    if 2 ≤ p.1 then some (l.take (a + p.2)) else none
  else none

/-- Matcher at one position for budget pattern (b),
`(\d{1,3}(?:\s?\d{3}){2,})` (grouped-thousands numbers): the greedy counter
`\d{1,3}` tries three digits first, then two, then one. -/
def pat2At (l : List Char) : Option (List Char) :=
  match pat2Try 3 l with
  | some r => some r
  | none =>
    match pat2Try 2 l with
    | some r => some r
    | none => pat2Try 1 l

/-- Matcher at one position for budget pattern (c), `(\d{7,})`: a greedy
digit run of length at least seven. -/
def pat3At (l : List Char) : Option (List Char) :=
  let ds := l.takeWhile isDigitC
  if 7 ≤ ds.length then some ds else none

/-- Matcher at one position for `\d+\s*m\b` (the second disjunct of the
million-marker test `re.search(r'\d+\s*m\b', text_lower)`). -/
def numMAt (l : List Char) : Option (List Char) :=
  let ds := l.takeWhile isDigitC
  if ds.isEmpty then none
  else
    match (l.drop ds.length).dropWhile isSpaceC with
    | 'm' :: r =>
      match r with
      | [] => some ds
      | c :: _ => if isWordC c then none else some ds
    | _ => none

/-- Matcher at one position for `(\d+)\s*chambres?` (room count). -/
def roomsAt (l : List Char) : Option (List Char) :=
  let ds := l.takeWhile isDigitC
  if ds.isEmpty then none
  else if beginsWith "chambre".data ((l.drop ds.length).dropWhile isSpaceC) then some ds
  else none

/-- Matcher at one position for `(\d+)\s*m[²2]` (area). -/
def areaAt (l : List Char) : Option (List Char) :=
  let ds := l.takeWhile isDigitC
  if ds.isEmpty then none
  else
    match (l.drop ds.length).dropWhile isSpaceC with
    | 'm' :: c :: _ => if c = '²' || c = '2' then some ds else none
    | _ => none

/-! ## Budget extraction (`agent.py` lines 535-564) -/

/-- The million-marker test of line 550:
`"million" in text_lower or re.search(r'\d+\s*m\b', text_lower)`. -/
def hasMillionMarker (t : List Char) : Bool :=
  containsSub "million".data t || (scanFirst numMAt t).isSome

/-- The context-window side decision of lines 553-560: slice 50 characters
around the first occurrence of the matched string and look for qualifier
words; `true` means the amount goes to `budget_max`, `false` to
`budget_min`. The default (no qualifier) is `budget_max`. -/
def budgetSideIsMax (t g : List Char) : Bool :=
  let i := pyFindIdx t g
  let lo := (max 0 (i - 50)).toNat
  let hi := (max 0 (i + 50)).toNat
  let ctx := (t.take hi).drop lo
  if containsAnyKw ctx ["max", "jusqu\x27à", "pas plus"] then true
  else if containsAnyKw ctx ["min", "au moins", "partir"] then false
  else true

/-- The amount computation of lines 547-551 for one regex capture `g`:
strip spaces and the (never actually present) literals `millions` / `m`,
parse the integer, then apply the million multiplier. `none` models the
`ValueError` swallowed by the `except: pass`. -/
def budgetAmount (t g : List Char) : Option Nat :=
  match pyInt? (removeAll "m".data (removeAll "millions".data (removeAll " ".data g))) with
  | none => none
  | some a => some (if hasMillionMarker t then a * 1000000 else a)

/-- The `for pattern in budget_patterns` loop of lines 543-564: the first
pattern that matches and whose capture parses assigns exactly one of the two
budget sides and breaks; a parse failure falls through to the next pattern
(the `except: pass`). Returns `(side-is-max, amount)`. -/
def budgetLoop : List (List Char → Option (List Char)) → List Char → Option (Bool × Nat)
  | [], _ => none
  | p :: ps, t =>
    match p t with
    | none => budgetLoop ps t
    | some g =>
      match budgetAmount t g with
      | none => budgetLoop ps t
      | some a => some (budgetSideIsMax t g, a)

/-- Budget extraction over the lowercased transcript, with the three patterns
in their source priority order. -/
def extractBudget (t : List Char) : Option (Bool × Nat) :=
  budgetLoop [scanFirst pat1At, scanFirst pat2At, scanFirst pat3At] t

/-! ## Criteria extraction (`agent.py` `_extract_criteria`, lines 483-576) -/

/-- Search criteria as built by `_extract_criteria`: the Python `dict` only
ever receives a key together with a non-`None` value, so key absence is
modelled by `none`. -/
structure Criteria where
  preferred_cities : Option (List String) := none
  preferred_types : Option (List String) := none
  transaction_type : Option String := none
  budget_min : Option Nat := none
  budget_max : Option Nat := none
  rooms : Option Nat := none
  area : Option Nat := none
deriving DecidableEq

/-- The empty criteria dict `{}`. -/
def emptyCriteria : Criteria := {}

/-- Truthiness of the criteria dict (`if conversation_state["criteria"]:`):
a dict is truthy when it has at least one key. -/
def Criteria.isEmpty (c : Criteria) : Bool :=
  c.preferred_cities = none && c.preferred_types = none &&
  c.transaction_type = none && c.budget_min = none && c.budget_max = none &&
  c.rooms = none && c.area = none

/-- The `cities_map` dictionary of lines 489-500, in insertion order. -/
def citiesMap : List (String × List String) :=
  [("Casablanca", ["casablanca", "casa"]),
   ("Rabat", ["rabat"]),
   ("Marrakech", ["marrakech", "marrakesh"]),
   ("Fès", ["fès", "fes"]),
   ("Tanger", ["tanger", "tangier"]),
   ("Agadir", ["agadir"]),
   ("Meknès", ["meknès", "meknes"]),
   ("Oujda", ["oujda"]),
   ("Tétouan", ["tétouan", "tetouan"]),
   ("Kénitra", ["kénitra", "kenitra"])]

/-- The `types_map` dictionary of lines 511-519, in insertion order. -/
def typesMap : List (String × List String) :=
  [("appartement", ["appartement", "appart"]),
   ("villa", ["villa"]),
   ("maison", ["maison"]),
   ("riad", ["riad"]),
   ("terrain", ["terrain"]),
   ("bureau", ["bureau"]),
   ("local_commercial", ["local commercial", "local", "commerce"])]

/-- Canonical keys whose keyword list hits the lowercased text (the
`detected_cities` / `detected_types` loops). -/
def detectedKeys (m : List (String × List String)) (t : List Char) : List String :=
  m.filterMap fun e => if e.2.any (fun k => containsSub k.data t) then some e.1 else none

/-- Transaction-type detection of lines 530-533: purchase vocabulary first,
rental vocabulary second, otherwise absent. -/
def detectTransaction (t : List Char) : Option String :=
  if containsAnyKw t ["vente", "acheter", "achat", "achète"] then some "vente"
  else if containsAnyKw t ["location", "louer", "loue"] then some "location"
  else none

/-- Model of the unguarded `int(...)` of the rooms/area branches: the capture
parses or a `ValueError` propagates (`Except.error`). -/
def intFieldE : Option (List Char) → Except String (Option Nat)
  | none => Except.ok none
  | some ds =>
    match pyInt? ds with
    | some n => Except.ok (some n)
    | none => Except.error "ValueError"

/-- The whole of `_extract_criteria`, in the `Except` monad: an `error`
models an uncaught Python exception escaping to the caller (the only
unguarded fallible operations are the two `int(...)` calls of the rooms and
area branches; the budget branch catches its own). -/
def extractCriteriaE (s : String) : Except String Criteria := do
  let t := pyLower s.data
  let cities := detectedKeys citiesMap t
  let types := detectedKeys typesMap t
  let trans := detectTransaction t
  let budget := extractBudget t
  let rooms ← intFieldE (scanFirst roomsAt t)
  let area ← intFieldE (scanFirst areaAt t)
  return {
    preferred_cities := if cities.isEmpty then none else some cities
    preferred_types := if types.isEmpty then none else some types
    transaction_type := trans
    budget_min := match budget with | some (false, a) => some a | _ => none
    budget_max := match budget with | some (true, a) => some a | _ => none
    rooms := rooms
    area := area }

/-- Total wrapper for the pipeline; the `error` branch is dead (proved in the
theorem for the safety claim). -/
def extractCriteria (s : String) : Criteria :=
  match extractCriteriaE s with
  | Except.ok c => c
  | Except.error _ => emptyCriteria

/-! ## Contact extraction (`agent.py` `_extract_contact_info`, lines 578-609) -/

/-- Contact info: the source initializes all three keys to `None` and
overwrites a key only on a successful match. -/
structure Contact where
  name : Option String := none
  phone : Option String := none
  email : Option String := none
deriving DecidableEq

/-- Matcher at one position for `(\+212|0)[5-7]\d{8}`: note that `findall`
returns only the captured group, i.e. the literal prefix `+212` or `0` —
this quirk of the source is reproduced faithfully. -/
def phoneAt (l : List Char) : Option (List Char) :=
  if beginsWith "+212".data l then
    match l.drop 4 with
    | c :: rest =>
      if ('5' ≤ c && c ≤ '7') && (rest.take 8).length = 8 && (rest.take 8).all isDigitC then
        some "+212".data
      else none
    | [] => none
  else
    match l with
    | '0' :: c :: rest =>
      if ('5' ≤ c && c ≤ '7') && (rest.take 8).length = 8 && (rest.take 8).all isDigitC then
        some ['0']
      else none
    | _ => none

/-- Matcher at one position for `(\d{10})`: exactly ten consecutive digits. -/
def phone10At (l : List Char) : Option (List Char) :=
  let ds := l.take 10
  if ds.length = 10 && ds.all isDigitC then some ds else none

/-- The two-pattern phone loop of lines 584-592. -/
def extractPhone (raw : List Char) : Option (List Char) :=
  match scanFirst phoneAt raw with
  | some p => some p
  | none => scanFirst phone10At raw

/-- Character class `[\w\.-]` of the email pattern. -/
def isEmailC (c : Char) : Bool := isWordC c || c = '.' || c = '-'

/-- Domain backtracking of `[\w\.-]+\.\w+\b`: inside the maximal email-char
run after the `@`, the engine backtracks to the last dot that is followed by
at least one word character and then takes the maximal word run; the
trailing boundary always holds because the run is maximal. -/
def emailDomainTrim (dom : List Char) : Option (List Char) :=
  let dots := (List.range dom.length).filter fun k =>
    dom.get? k = some '.' && ((dom.get? (k + 1)).map isWordC).getD false
  match dots.getLast? with
  | none => none
  | some k => some (dom.take k ++ '.' :: (dom.drop (k + 1)).takeWhile isWordC)

/-- Matcher at one position for the email pattern
`\b[\w\.-]+@[\w\.-]+\.\w+\b` (the leading boundary is checked by the email
scanner below). -/
def emailAt (l : List Char) : Option (List Char) :=
  let lp := l.takeWhile isEmailC
  if lp.isEmpty then none
  else
    match l.drop lp.length with
    | '@' :: rest =>
      match emailDomainTrim (rest.takeWhile isEmailC) with
      | some d => some (lp ++ '@' :: d)
      | none => none
    | _ => none

/-- Email scanner: tries every position like `scanFirst` but also tracks the
previous character so the leading `\b` (word/non-word transition) can be
checked. -/
def findEmailGo (prevWord : Bool) : List Char → Option (List Char)
  | [] => none
  | c :: cs =>
    match (if isWordC c != prevWord then emailAt (c :: cs) else none) with
    | some r => some r
    | none => findEmailGo (isWordC c) cs

/-- First email in the raw (non-lowercased) text. -/
def extractEmail (raw : List Char) : Option (List Char) := findEmailGo false raw

/-- Letter class of the name pattern `[A-ZÀ-Ÿ]` / `[a-zà-ÿ]` under
`re.IGNORECASE`: with the flag both classes accept both cases, so one
combined class is used for matching. -/
def isNameLetter (c : Char) : Bool :=
  ('A' ≤ c && c ≤ 'Z') || ('a' ≤ c && c ≤ 'z') ||
  ('À' ≤ c && c ≤ 'ÿ' && c ≠ '×' && c ≠ '÷') || c = 'Ÿ'

/-- Case-insensitive anchored literal match (the trigger alternation runs
under `re.IGNORECASE`). -/
def beginsWithCI (p l : List Char) : Bool :=
  beginsWith p (pyLower (l.take p.length))

/-- One trigger alternative of the name pattern
`(?:je m'appelle|mon nom est|je suis)\s+([A-ZÀ-Ÿ][a-zà-ÿ]+(?:\s+[A-ZÀ-Ÿ][a-zà-ÿ]+)?)`:
after the trigger and at least one whitespace, capture a letter word of
length at least two, optionally followed by whitespace and a second such
word. -/
def nameTriggerAt (trig : String) (l : List Char) : Option (List Char) :=
  if beginsWithCI trig.data l then
    let rest := l.drop trig.data.length
    let ws := rest.takeWhile isSpaceC
    if ws.isEmpty then none
    else
      let r2 := rest.drop ws.length
      let w1 := r2.takeWhile isNameLetter
      if 2 ≤ w1.length then
        let r3 := r2.drop w1.length
        let ws2 := r3.takeWhile isSpaceC
        let w2 := (r3.drop ws2.length).takeWhile isNameLetter
        if !ws2.isEmpty && 2 ≤ w2.length then some (w1 ++ ws2 ++ w2)
        else some w1
      else none
  else none

/-- Matcher at one position for the name pattern: the alternation tries the
three self-introduction triggers in source order. -/
def nameAt (l : List Char) : Option (List Char) :=
  match nameTriggerAt "je m\x27appelle" l with
  | some r => some r
  | none =>
    match nameTriggerAt "mon nom est" l with
    | some r => some r
    | none => nameTriggerAt "je suis" l

/-- Strip leading and trailing whitespace (`str.strip()`). -/
def stripWs (l : List Char) : List Char :=
  ((l.dropWhile isSpaceC).reverse.dropWhile isSpaceC).reverse

/-- The whole of `_extract_contact_info` in the `Except` monad; it has no
fallible operation at all, so it is `ok` by construction. -/
def extractContactE (s : String) : Except String Contact :=
  let raw := s.data
  Except.ok {
    name := (scanFirst nameAt raw).map fun n => String.mk (stripWs n)
    phone := (extractPhone raw).map String.mk
    email := (extractEmail raw).map String.mk }

/-- Total wrapper. -/
def extractContact (s : String) : Contact :=
  match extractContactE s with
  | Except.ok c => c
  | Except.error _ => {}

/-! ## Scoring and classification
(`agent.py` `_calculate_score` lines 611-643, `_determine_lead_quality`
lines 645-652; `tools.py` `calculate_qualification_score` lines 132-199,
`classify_lead_quality` lines 202-217) -/

/-- The conversational-turn scorer `_calculate_score`: additive truthiness
checks (`criteria.get(...)` / `contact_info.get(...)` under `if`), clipped by
`min(score, 100)`. -/
def calculateScore (c : Criteria) (k : Contact) : Nat :=
  let s :=
    (if pyTruthyNat c.budget_min || pyTruthyNat c.budget_max then 25 else 0) +
    (if pyTruthyList c.preferred_cities then 20 else 0) +
    (if pyTruthyList c.preferred_types then 15 else 0) +
    (if pyTruthyStr c.transaction_type then 10 else 0) +
    (if pyTruthyNat c.rooms then 5 else 0) +
    (if pyTruthyNat c.area then 5 else 0) +
    (if pyTruthyStr k.name then 5 else 0) +
    (if pyTruthyStr k.phone then 10 else 0) +
    (if pyTruthyStr k.email then 5 else 0)
  min s 100

/-- The agent-side classifier `_determine_lead_quality`: thresholds 70/40. -/
def determineLeadQuality (score : Int) : String :=
  if 70 ≤ score then "hot"
  else if 40 ≤ score then "warm"
  else "cold"

/-- The tools-side classifier `classify_lead_quality`: thresholds 70/50. -/
def classifyLeadQuality (score : Int) : String :=
  if 70 ≤ score then "hot"
  else if 50 ≤ score then "warm"
  else "cold"

/-- The workflow scorer `calculate_qualification_score`: boolean signals
plus a capped specific-criteria bonus and a capped engagement bonus
(`min(int(engagement_level / 2), 5)` is floor division for the non-negative
inputs considered). -/
def calculateQualificationScore (budget location ptype timeframe contact : Bool)
    (specificCount engagement : Nat) : Nat :=
  (if budget then 25 else 0) +
  (if location then 20 else 0) +
  (if ptype then 15 else 0) +
  (if timeframe then 10 else 0) +
  (if contact then 15 else 0) +
  min (specificCount * 5) 10 +
  min (engagement / 2) 5

/-! ## Agent conversation state and transitions (`agent.py`) -/

/-- One chat message; the wall-clock `timestamp` the source attaches is
external input that never feeds any decision, so it is omitted. -/
structure Msg where
  role : String
  content : String
deriving DecidableEq

/-- The agent conversation state dict created in `start_conversation`
(lines 79-90) plus the completion fields set by `end_conversation`. -/
structure ConvState where
  conversation_id : String
  messages : List Msg
  criteria : Criteria
  contact_info : Contact
  qualification_score : Nat
  lead_quality : String
  status : String
  lead_id : Option String
  ended_at : Option String := none
  end_reason : Option String := none
deriving DecidableEq

/-- Initial state of a fresh conversation (lines 79-90). -/
def initialConvState (id : String) : ConvState :=
  { conversation_id := id
    messages := []
    criteria := emptyCriteria
    contact_info := {}
    qualification_score := 0
    lead_quality := "cold"
    status := "active"
    lead_id := none }

/-- The transcript of line 291-294:
`"\n".join(f"{msg['role']}: {msg['content']}" for msg in messages)`. -/
def transcript (msgs : List Msg) : String :=
  String.intercalate "\n" (msgs.map fun m => m.role ++ ": " ++ m.content)

/-- `conversation_state["criteria"].update(new_criteria)`: keys present in
the new extraction overwrite, absent ones are retained. -/
def mergeCriteria (old new : Criteria) : Criteria :=
  { preferred_cities := optOr new.preferred_cities old.preferred_cities
    preferred_types := optOr new.preferred_types old.preferred_types
    transaction_type := optOr new.transaction_type old.transaction_type
    budget_min := optOr new.budget_min old.budget_min
    budget_max := optOr new.budget_max old.budget_max
    rooms := optOr new.rooms old.rooms
    area := optOr new.area old.area }

/-- Result dict of `_process_message` (lines 351-360). -/
structure TurnResult where
  response : String
  qualification_score : Nat
  lead_quality : String
  should_create_lead : Bool
  conversation_complete : Bool
  properties_shown : Bool
  matched_properties_count : Nat
  criteria_extracted_budget : Bool
  criteria_extracted_location : Bool
  criteria_extracted_property_type : Bool
  criteria_extracted_contact : Bool
deriving DecidableEq

/-- Output of one `_process_message` call: the mutated state, the result
dict, and a flag recording whether `_match_properties` was invoked
(lines 315-317: it is invoked exactly when the merged criteria dict is
truthy). -/
structure ProcessOut where
  state : ConvState
  result : TurnResult
  searched : Bool
deriving DecidableEq

/-- Shallow embedding of `_process_message` (lines 272-360). External
effects are parameters: `assistantReply` is the LLM-generated reply and
`dbMatches` the rows the property search would return (modelled as opaque
units since only their count is used). Note that `contact_info.update(...)`
receives a dict that always carries all three keys, so it wholly replaces
the stored contact info with the fresh full-transcript extraction. -/
def processMessage (st : ConvState) (userMsg assistantReply : String)
    (dbMatches : List Unit) : ProcessOut :=
  let msgs1 := st.messages ++ [⟨"user", userMsg⟩]
  let text := transcript msgs1
  let criteria := mergeCriteria st.criteria (extractCriteria text)
  let contact := extractContact text
  let score := calculateScore criteria contact
  let quality := determineLeadQuality (score : Int)
  let searched := !criteria.isEmpty
  let matched := if criteria.isEmpty then ([] : List Unit) else dbMatches
  let msgs2 := msgs1 ++ [⟨"assistant", assistantReply⟩]
  let shouldCreate :=
    decide (50 ≤ score) && pyTruthyStr contact.name && pyTruthyStr contact.phone
  let complete := decide (70 ≤ score) || decide (20 < msgs2.length)
  { state :=
      { st with
        messages := msgs2
        criteria := criteria
        contact_info := contact
        qualification_score := score
        lead_quality := quality }
    result :=
      { response := assistantReply
        qualification_score := score
        lead_quality := quality
        should_create_lead := shouldCreate
        conversation_complete := complete
        properties_shown := decide (0 < matched.length)
        matched_properties_count := matched.length
        criteria_extracted_budget := pyTruthyNat criteria.budget_min || pyTruthyNat criteria.budget_max
        criteria_extracted_location := pyTruthyList criteria.preferred_cities
        criteria_extracted_property_type := pyTruthyList criteria.preferred_types
        criteria_extracted_contact := pyTruthyStr contact.phone }
    searched := searched }

/-- Output of `continue_conversation` (lines 123-180). -/
structure ContinueOut where
  state : ConvState
  turn : TurnResult
  lead_id : Option String
deriving DecidableEq

/-- Shallow embedding of `continue_conversation` for a conversation that was
found (the not-found branch raises and mutates nothing). `createResult` is
the id the external lead insert would return (`None` on insert failure).
Note: no status check is performed — the source processes the message
whatever `status` holds. -/
def continueConversation (st : ConvState) (userMsg assistantReply : String)
    (dbMatches : List Unit) (createResult : Option String) : ContinueOut :=
  let po := processMessage st userMsg assistantReply dbMatches
  let st1 := po.state
  if po.result.should_create_lead && !pyTruthyStr st1.lead_id then
    let st2 := { st1 with lead_id := createResult }
    { state := st2, turn := po.result, lead_id := pyOrStr createResult st2.lead_id }
  else
    { state := st1, turn := po.result, lead_id := pyOrStr none st1.lead_id }

/-- Thousands-separated rendering of a natural number, the model of the
Python format `f"{v:,.0f}"` used by `_generate_summary`. -/
def commaGroup (n : Nat) : String :=
  let ds := (toString n).data
  let rec go : List Char → Nat → List Char
    | [], _ => []
    | c :: cs, k =>
      if k % 3 = 0 && k ≠ 0 then ',' :: c :: go cs (k + 1) else c :: go cs (k + 1)
  String.mk (go ds.reverse 0).reverse

/-- Shallow embedding of `_generate_summary` (lines 714-739). -/
def generateSummary (st : ConvState) : String :=
  let s1 := "Prospect "
  let s2 := s1 ++ (match st.contact_info.name with
    | some n => if n ≠ "" then n ++ " " else ""
    | none => "")
  let s3 := s2 ++ "recherche "
  let s4 := s3 ++ (match st.criteria.preferred_types with
    | some l => if l ≠ [] then String.intercalate ", " l ++ " " else "un bien "
    | none => "un bien ")
  let s5 := s4 ++ (match st.criteria.preferred_cities with
    | some l => if l ≠ [] then "à " ++ String.intercalate ", " l ++ " " else ""
    | none => "")
  let s6 := s5 ++ (match st.criteria.budget_max with
    | some b => if b ≠ 0 then "budget max " ++ commaGroup b ++ " MAD " else ""
    | none => "")
  s6 ++ "(Score: " ++ toString st.qualification_score ++ "/100)"

/-- Result dict of `end_conversation` (lines 253-262). -/
structure EndResult where
  conversation_id : String
  status : String
  qualification_score : Nat
  lead_quality : String
  lead_created : Bool
  lead_id : Option String
  messages_count : Nat
  summary : String
deriving DecidableEq

/-- Shallow embedding of `end_conversation` for a conversation that was
found (lines 208-262). `createResult` is the external insert's id, `now`
the wall clock. The lead gate of lines 232-234 tests only
`not lead_id and score >= 50`; the local variable `lead_id` is rebound to
the new id but the state field `lead_id` is never assigned, so the persisted
completed snapshot keeps its old value. -/
def endConversation (st : ConvState) (reason : String)
    (createResult : Option String) (now : String) : EndResult × ConvState :=
  let gate := !pyTruthyStr st.lead_id && decide (50 ≤ st.qualification_score)
  let leadCreated := gate
  let leadId := if gate then createResult else st.lead_id
  let summary := generateSummary st
  let st' := { st with status := "completed", ended_at := some now, end_reason := some reason }
  ({ conversation_id := st.conversation_id
     status := "completed"
     qualification_score := st.qualification_score
     lead_quality := st.lead_quality
     lead_created := leadCreated
     lead_id := leadId
     messages_count := st.messages.length
     summary := summary }, st')

/-! ## Workflow state machine (`workflow.py`, `state.py`) -/

/-- The slice of the LangGraph `ConversationState` (`state.py` lines 19-73)
used by the decision functions settled here. -/
structure WState where
  budget_defined : Bool := false
  location_defined : Bool := false
  property_type_defined : Bool := false
  timeframe_defined : Bool := false
  contact_info_complete : Bool := false
  properties_shown : Bool := false
  should_create_lead : Bool := false
  specific_criteria_count : Nat := 0
  engagement_level : Nat := 0
  qualification_score : Nat := 0
  current_user_message : String := ""
  matched_properties : List Unit := []
deriving DecidableEq

/-- `is_ready_for_property_search` (`state.py` lines 197-218): at least two
of the three signals. -/
def isReadyForPropertySearch (w : WState) : Bool :=
  2 ≤ (cond w.budget_defined 1 0) + (cond w.location_defined 1 0) +
      (cond w.property_type_defined 1 0)

/-- `is_lead_qualified` (`state.py` lines 221-231). -/
def isLeadQualified (w : WState) : Bool := 50 ≤ w.qualification_score

/-- `_should_search_properties` (`workflow.py` lines 240-258). -/
def shouldSearchProperties (w : WState) : String :=
  if isReadyForPropertySearch w &&
      (!w.properties_shown ||
        containsSub "propriété".data (pyLower w.current_user_message.data) ||
        containsSub "bien".data (pyLower w.current_user_message.data)) then
    "search"
  else "skip"

/-- `_search_properties` (`workflow.py` lines 260-292): store the rows the
external search returned and mark `properties_shown = True`. -/
def searchProperties (w : WState) (dbResults : List Unit) : WState :=
  { w with matched_properties := dbResults, properties_shown := true }

/-- Farewell test of `_should_continue_conversation`
(`workflow.py` lines 372-374). -/
def userWantsToEnd (msg : String) : Bool :=
  containsAnyKw (pyLower msg.data)
    ["merci", "au revoir", "bye", "stop", "terminé", "fini", "ça suffit"]

/-- `_should_continue_conversation` (`workflow.py` lines 358-381). -/
def shouldContinueConversation (w : WState) : String :=
  if (w.should_create_lead && w.contact_info_complete) || userWantsToEnd w.current_user_message then
    "finalize"
  else "continue"

/-! ## Spec-side definitions (used to compare the code against the claims) -/

/-- Modelled from the claim for the turn scorer, reading "present" as key
presence (`isSome`): the sum of the claimed point values over present
fields, clipped to 100. This follows the claim wording, not the source. -/
def specScorePresence (c : Criteria) (k : Contact) : Nat :=
  let s :=
    (if c.budget_min.isSome || c.budget_max.isSome then 25 else 0) +
    (if c.preferred_cities.isSome then 20 else 0) +
    (if c.preferred_types.isSome then 15 else 0) +
    (if c.transaction_type.isSome then 10 else 0) +
    (if c.rooms.isSome then 5 else 0) +
    (if c.area.isSome then 5 else 0) +
    (if k.name.isSome then 5 else 0) +
    (if k.phone.isSome then 10 else 0) +
    (if k.email.isSome then 5 else 0)
  min s 100

/-- Modelled from the amended claim for the turn scorer: the same point
table, but a field only counts when its value is Python-truthy (non-`None`
and nonzero / nonempty). -/
def specScoreTruthy (c : Criteria) (k : Contact) : Nat :=
  let s :=
    (if pyTruthyNat c.budget_min || pyTruthyNat c.budget_max then 25 else 0) +
    (if pyTruthyList c.preferred_cities then 20 else 0) +
    (if pyTruthyList c.preferred_types then 15 else 0) +
    (if pyTruthyStr c.transaction_type then 10 else 0) +
    (if pyTruthyNat c.rooms then 5 else 0) +
    (if pyTruthyNat c.area then 5 else 0) +
    (if pyTruthyStr k.name then 5 else 0) +
    (if pyTruthyStr k.phone then 10 else 0) +
    (if pyTruthyStr k.email then 5 else 0)
  min s 100

/-- Signal order on one optional field: either unchanged, or previously
absent (so the right-hand side may add the signal). -/
def OptLe {α : Type} (x y : Option α) : Prop := x = y ∨ x = none

/-- Signal order on criteria: each field unchanged or newly added. -/
def CriteriaLe (c c' : Criteria) : Prop :=
  OptLe c.preferred_cities c'.preferred_cities ∧
  OptLe c.preferred_types c'.preferred_types ∧
  OptLe c.transaction_type c'.transaction_type ∧
  OptLe c.budget_min c'.budget_min ∧
  OptLe c.budget_max c'.budget_max ∧
  OptLe c.rooms c'.rooms ∧
  OptLe c.area c'.area

/-- Signal order on contact records. -/
def ContactLe (k k' : Contact) : Prop :=
  OptLe k.name k'.name ∧ OptLe k.phone k'.phone ∧ OptLe k.email k'.email

/-- Signal order on booleans: an absent (false) signal may be added. -/
def BoolLe (b b' : Bool) : Prop := b = true → b' = true

/-- A city keyword of the `cities_map` table occurs in the lowercased text
(spec-level reading of "a recognized city keyword matches"). -/
def CityMentioned (s : String) : Prop :=
  ∃ e ∈ citiesMap, ∃ k ∈ e.2, containsSub k.data (pyLower s.data) = true

/-- A property-type keyword of the `types_map` table occurs in the
lowercased text. -/
def TypeMentioned (s : String) : Prop :=
  ∃ e ∈ typesMap, ∃ k ∈ e.2, containsSub k.data (pyLower s.data) = true

/-- A transaction keyword (purchase or rental vocabulary) occurs in the
lowercased text. -/
def TransMentioned (s : String) : Prop :=
  containsAnyKw (pyLower s.data) ["vente", "acheter", "achat", "achète"] = true ∨
  containsAnyKw (pyLower s.data) ["location", "louer", "loue"] = true

/-! ## Concrete instances used by counterexamples and witnesses -/

/-- One turn on a fresh conversation whose message yields budget, city and
transaction criteria (score 55) but no contact info. -/
def c1Turn : ProcessOut :=
  processMessage (initialConvState "c1x")
    "je veux acheter à casablanca budget max 2 millions" "ok" []

/-- A conversation already marked `completed` (as `end_conversation` leaves
it in the store), about to receive a further message. -/
def c6State : ConvState :=
  { initialConvState "c6x" with
    status := "completed"
    messages := [⟨"user", "bonjour"⟩, ⟨"assistant", "salut"⟩] }

/-- One turn whose user message is exactly the farewell "au revoir". -/
def c7Turn : ProcessOut := processMessage (initialConvState "c7x") "au revoir" "ok" []

/-- One turn whose message yields a city criterion only (one of the three
search signals). -/
def c8Turn : ProcessOut := processMessage (initialConvState "c8x") "je cherche à casablanca" "ok" []

/-- A qualified conversation (stored score 55) without a lead. -/
def c10State : ConvState := { initialConvState "c10x" with qualification_score := 55 }

/-! ## Helper lemmas about the extraction layer -/

/-- Any property of the captures produced by a per-position matcher carries
over to the leftmost-scan result. -/
theorem scanFirst_pred {P : List Char → Prop} {f : List Char → Option (List Char)}
    (hf : ∀ l r, f l = some r → P r) :
    ∀ {t r}, scanFirst f t = some r → P r := by
  intro t
  induction t with
  | nil => intro r h; simp [scanFirst] at h
  | cons c cs ih =>
    intro r h
    rw [scanFirst] at h
    cases hfc : f (c :: cs) with
    | some g => rw [hfc] at h; exact hf _ _ (hfc.trans h)
    | none => rw [hfc] at h; exact ih h

/-- The rooms matcher only captures nonempty digit runs. -/
theorem roomsAt_digits {l ds : List Char} (h : roomsAt l = some ds) :
    ds ≠ [] ∧ ds.all isDigitC = true := by
  simp only [roomsAt] at h
  split_ifs at h with h1 h2
  obtain rfl := Option.some.inj h
  refine ⟨fun hnil => ?_, List.all_eq_true.2 fun a ha => List.mem_takeWhile_imp ha⟩
  rw [hnil] at h1
  exact h1 rfl

/-- The area matcher only captures nonempty digit runs. -/
theorem areaAt_digits {l ds : List Char} (h : areaAt l = some ds) :
    ds ≠ [] ∧ ds.all isDigitC = true := by
  simp only [areaAt] at h
  split_ifs at h with h1
  split at h
  next =>
    split_ifs at h
    obtain rfl := Option.some.inj h
    refine ⟨fun hnil => ?_, List.all_eq_true.2 fun a ha => List.mem_takeWhile_imp ha⟩
    rw [hnil] at h1
    exact h1 rfl
  next => exact Option.noConfusion h

/-- `int(...)` succeeds on a nonempty digit run. -/
theorem pyInt?_digits {ds : List Char} (h : ds ≠ [] ∧ ds.all isDigitC = true) :
    pyInt? ds = some (digitsVal ds) := by
  simp [pyInt?, h.1, h.2]

/-- The rooms field computation never raises. -/
theorem intFieldE_rooms (t : List Char) :
    intFieldE (scanFirst roomsAt t) = Except.ok ((scanFirst roomsAt t).map digitsVal) := by
  cases h : scanFirst roomsAt t with
  | none => simp [intFieldE]
  | some ds =>
    have hd := scanFirst_pred (fun _ _ hr => roomsAt_digits hr) h
    simp [intFieldE, pyInt?_digits hd]

/-- The area field computation never raises. -/
theorem intFieldE_area (t : List Char) :
    intFieldE (scanFirst areaAt t) = Except.ok ((scanFirst areaAt t).map digitsVal) := by
  cases h : scanFirst areaAt t with
  | none => simp [intFieldE]
  | some ds =>
    have hd := scanFirst_pred (fun _ _ hr => areaAt_digits hr) h
    simp [intFieldE, pyInt?_digits hd]

/-- Closed form of the criteria extractor: it always returns `ok`, with the
fields computed by the individual detectors. -/
theorem extractCriteriaE_eq (s : String) :
    extractCriteriaE s = Except.ok
      { preferred_cities :=
          if (detectedKeys citiesMap (pyLower s.data)).isEmpty then none
          else some (detectedKeys citiesMap (pyLower s.data))
        preferred_types :=
          if (detectedKeys typesMap (pyLower s.data)).isEmpty then none
          else some (detectedKeys typesMap (pyLower s.data))
        transaction_type := detectTransaction (pyLower s.data)
        budget_min :=
          match extractBudget (pyLower s.data) with
          | some (false, a) => some a
          | _ => none
        budget_max :=
          match extractBudget (pyLower s.data) with
          | some (true, a) => some a
          | _ => none
        rooms := (scanFirst roomsAt (pyLower s.data)).map digitsVal
        area := (scanFirst areaAt (pyLower s.data)).map digitsVal } := by
  simp only [extractCriteriaE]
  rw [intFieldE_rooms, intFieldE_area]
  rfl

/-- The total wrapper agrees with the closed form. -/
theorem extractCriteria_eq (s : String) :
    extractCriteria s =
      { preferred_cities :=
          if (detectedKeys citiesMap (pyLower s.data)).isEmpty then none
          else some (detectedKeys citiesMap (pyLower s.data))
        preferred_types :=
          if (detectedKeys typesMap (pyLower s.data)).isEmpty then none
          else some (detectedKeys typesMap (pyLower s.data))
        transaction_type := detectTransaction (pyLower s.data)
        budget_min :=
          match extractBudget (pyLower s.data) with
          | some (false, a) => some a
          | _ => none
        budget_max :=
          match extractBudget (pyLower s.data) with
          | some (true, a) => some a
          | _ => none
        rooms := (scanFirst roomsAt (pyLower s.data)).map digitsVal
        area := (scanFirst areaAt (pyLower s.data)).map digitsVal } := by
  unfold extractCriteria
  rw [extractCriteriaE_eq]

/-- The detection loops return the empty list exactly when no keyword of the
table occurs in the text. -/
theorem detectedKeys_nil_iff (m : List (String × List String)) (t : List Char) :
    detectedKeys m t = [] ↔ ¬ ∃ e ∈ m, ∃ k ∈ e.2, containsSub k.data t = true := by
  unfold detectedKeys
  rw [List.filterMap_eq_nil_iff]
  constructor
  · rintro h ⟨e, he, k, hk, hc⟩
    have := h e he
    rw [if_pos] at this
    · exact Option.noConfusion this
    · exact List.any_eq_true.2 ⟨k, hk, hc⟩
  · intro h e he
    rw [if_neg]
    intro hc
    obtain ⟨k, hk, hck⟩ := List.any_eq_true.1 hc
    exact h ⟨e, he, k, hk, hck⟩

/-- Claim C9: for every input string, the criteria extractor and the contact
extractor terminate without raising (`Except.ok`), and a criteria category
that is not matched in the text is absent (`none`) from the result — no
placeholder values are emitted for unmatched categories. -/
theorem c9_extractors_total_and_absent (s : String) :
    (extractCriteriaE s).isOk = true ∧
    (extractContactE s).isOk = true ∧
    ((extractCriteria s).preferred_cities = none ↔ ¬ CityMentioned s) ∧
    ((extractCriteria s).preferred_types = none ↔ ¬ TypeMentioned s) ∧
    ((extractCriteria s).transaction_type = none ↔ ¬ TransMentioned s) ∧
    ((extractCriteria s).rooms = none ↔ scanFirst roomsAt (pyLower s.data) = none) ∧
    ((extractCriteria s).area = none ↔ scanFirst areaAt (pyLower s.data) = none) ∧
    ((extractCriteria s).budget_min = none ∧ (extractCriteria s).budget_max = none ↔
      extractBudget (pyLower s.data) = none) := by
  refine ⟨by rw [extractCriteriaE_eq]; rfl, rfl, ?_, ?_, ?_, ?_, ?_, ?_⟩
  · rw [extractCriteria_eq]
    unfold CityMentioned
    rw [← detectedKeys_nil_iff citiesMap (pyLower s.data)]
    by_cases h : (detectedKeys citiesMap (pyLower s.data)).isEmpty
    · simp [h, List.isEmpty_iff.1 h]
    · simp only [if_neg h]
      simp only [List.isEmpty_iff] at h
      simp [h]
  · rw [extractCriteria_eq]
    unfold TypeMentioned
    rw [← detectedKeys_nil_iff typesMap (pyLower s.data)]
    by_cases h : (detectedKeys typesMap (pyLower s.data)).isEmpty
    · simp [h, List.isEmpty_iff.1 h]
    · simp only [if_neg h]
      simp only [List.isEmpty_iff] at h
      simp [h]
  · rw [extractCriteria_eq]
    unfold TransMentioned detectTransaction
    by_cases h1 : containsAnyKw (pyLower s.data) ["vente", "acheter", "achat", "achète"] = true
    · simp [h1]
    · by_cases h2 : containsAnyKw (pyLower s.data) ["location", "louer", "loue"] = true
      · simp [h1, h2]
      · simp [h1, h2]
  · rw [extractCriteria_eq]
    cases scanFirst roomsAt (pyLower s.data) <;> simp
  · rw [extractCriteria_eq]
    cases scanFirst areaAt (pyLower s.data) <;> simp
  · rw [extractCriteria_eq]
    rcases hb : extractBudget (pyLower s.data) with _ | ⟨b, v⟩
    · simp
    · rcases b <;> simp

/-- Claim C3 (counterexample): the claim asserts that extraction on
"à partir de 800000" sets `budget_min = 800000`; in fact the six-digit
amount matches none of the three budget patterns, so `budget_min` stays
absent. -/
theorem c3_counterexample :
    (extractCriteria "à partir de 800000").budget_min = none ∧
    (extractCriteria "à partir de 800000").budget_min ≠ some 800000 := by
  decide

/-- Claim C3 (amended): "budget max 2 millions" sets `budget_max =
2_000_000` and leaves `budget_min` unset, and in any single extraction pass
at most one of `budget_min` / `budget_max` is set; but "à partir de 800000"
sets neither side (a bare six-digit number matches no budget pattern —
a million marker, grouped thousands, or at least seven digits is needed,
e.g. "à partir de 8 millions" does set `budget_min = 8_000_000`). -/
theorem c3_amended :
    (extractCriteria "budget max 2 millions").budget_max = some 2000000 ∧
    (extractCriteria "budget max 2 millions").budget_min = none ∧
    (extractCriteria "à partir de 800000").budget_min = none ∧
    (extractCriteria "à partir de 800000").budget_max = none ∧
    (extractCriteria "à partir de 8 millions").budget_min = some 8000000 ∧
    (extractCriteria "à partir de 8 millions").budget_max = none ∧
    ∀ s : String,
      ¬ ((extractCriteria s).budget_min ≠ none ∧ (extractCriteria s).budget_max ≠ none) := by
  refine ⟨rfl, rfl, rfl, rfl, rfl, rfl, ?_⟩
  rintro s ⟨hmin, hmax⟩
  rw [extractCriteria_eq] at hmin hmax
  rcases hb : extractBudget (pyLower s.data) with _ | ⟨b, v⟩
  · rw [hb] at hmin
    exact hmin rfl
  · rcases b
    · rw [hb] at hmax
      exact hmax rfl
    · rw [hb] at hmin
      exact hmin rfl

/-- Claim C4 (counterexample): the claim awards 25 points when `budget_min`
or `budget_max` is present; the source tests Python truthiness, so a present
`budget_max = 0` earns 0 points, not 25. -/
theorem c4_counterexample :
    calculateScore { budget_max := some 0 } {} = 0 ∧
    specScorePresence { budget_max := some 0 } {} = 25 ∧
    calculateScore { budget_max := some 0 } {} ≠
      specScorePresence { budget_max := some 0 } {} := by
  decide

/-- Claim C4 (amended): for every criteria mapping and contact record the
turn scorer returns exactly the claimed additive point sum, with "present"
strengthened to "Python-truthy" (non-`None` and nonzero / nonempty), clipped
to at most 100; the result always lies in `[0, 100]`. -/
theorem c4_amended (c : Criteria) (k : Contact) :
    calculateScore c k = specScoreTruthy c k ∧ calculateScore c k ≤ 100 :=
  ⟨rfl, Nat.min_le_right _ _⟩

/-- Claim C2 (counterexample): at score 45 the agent-side classifier says
"warm" while the tools-side classifier says "cold", so the claimed uniform
`50 ≤ score < 70 ↔ warm` rule and the claimed cross-component consistency
both fail. -/
theorem c2_counterexample :
    determineLeadQuality 45 = "warm" ∧
    classifyLeadQuality 45 = "cold" ∧
    determineLeadQuality 45 ≠ classifyLeadQuality 45 ∧
    ¬ (50 ≤ (45 : Int) ∧ (45 : Int) < 70) := by
  decide

/-- Claim C2 (amended): the tools-side classifier realizes exactly the
claimed thresholds (hot iff ≥ 70, warm iff 50 ≤ s < 70, cold otherwise);
the agent-side classifier uses 40 instead of 50 as the warm threshold, and
the two agree exactly outside the band `[40, 50)`. -/
theorem c2_amended (s : Int) :
    (classifyLeadQuality s = "hot" ↔ 70 ≤ s) ∧
    (classifyLeadQuality s = "warm" ↔ 50 ≤ s ∧ s < 70) ∧
    (classifyLeadQuality s = "cold" ↔ s < 50) ∧
    (determineLeadQuality s = "hot" ↔ 70 ≤ s) ∧
    (determineLeadQuality s = "warm" ↔ 40 ≤ s ∧ s < 70) ∧
    (determineLeadQuality s = "cold" ↔ s < 40) ∧
    (determineLeadQuality s = classifyLeadQuality s ↔ ¬ (40 ≤ s ∧ s < 50)) := by
  unfold determineLeadQuality classifyLeadQuality
  split_ifs with h1 h2 h3 <;> simp_all <;> omega

/-- Point terms guarded by boolean signals are monotone in the signal. -/
theorem ite_pts_mono {b b' : Bool} (p : Nat) (h : b = true → b' = true) :
    (if b then p else 0) ≤ (if b' then p else 0) := by
  cases b with
  | false => simp
  | true => rw [h rfl]

/-- A truthiness test with falsy `none` is monotone along the signal order on
optional fields. -/
theorem OptLe.truthy {α : Type} {f : Option α → Bool} (hf : f none = false)
    {x y : Option α} (h : OptLe x y) : f x = true → f y = true := by
  rcases h with rfl | rfl
  · exact id
  · intro hx
    rw [hf] at hx
    exact absurd hx (by simp)

/-- Disjunction of signals is monotone. -/
theorem orImp {a a' b b' : Bool} (ha : a = true → a' = true) (hb : b = true → b' = true) :
    (a || b) = true → (a' || b') = true := by
  intro h
  simp only [Bool.or_eq_true] at h ⊢
  rcases h with h | h
  · exact Or.inl (ha h)
  · exact Or.inr (hb h)

/-- The turn scorer is monotone along the signal order. -/
theorem calculateScore_mono {c c' : Criteria} {k k' : Contact}
    (hc : CriteriaLe c c') (hk : ContactLe k k') :
    calculateScore c k ≤ calculateScore c' k' := by
  obtain ⟨h1, h2, h3, h4, h5, h6, h7⟩ := hc
  obtain ⟨g1, g2, g3⟩ := hk
  simp only [calculateScore]
  refine min_le_min ?_ le_rfl
  refine Nat.add_le_add (Nat.add_le_add (Nat.add_le_add (Nat.add_le_add (Nat.add_le_add
    (Nat.add_le_add (Nat.add_le_add (Nat.add_le_add ?_ ?_) ?_) ?_) ?_) ?_) ?_) ?_) ?_
  · exact ite_pts_mono _ (orImp (h4.truthy rfl) (h5.truthy rfl))
  · exact ite_pts_mono _ (h1.truthy rfl)
  · exact ite_pts_mono _ (h2.truthy rfl)
  · exact ite_pts_mono _ (h3.truthy rfl)
  · exact ite_pts_mono _ (h6.truthy rfl)
  · exact ite_pts_mono _ (h7.truthy rfl)
  · exact ite_pts_mono _ (g1.truthy rfl)
  · exact ite_pts_mono _ (g2.truthy rfl)
  · exact ite_pts_mono _ (g3.truthy rfl)

/-- The workflow scorer is bounded by 100. -/
theorem calcQualification_le_100 (b l t tf ct : Bool) (n e : Nat) :
    calculateQualificationScore b l t tf ct n e ≤ 100 := by
  unfold calculateQualificationScore
  split_ifs <;> omega

/-- The workflow scorer is monotone in every signal. -/
theorem calcQualification_mono {b b' l l' t t' tf tf' ct ct' : Bool} {n n' e e' : Nat}
    (hb : BoolLe b b') (hl : BoolLe l l') (ht : BoolLe t t') (htf : BoolLe tf tf')
    (hct : BoolLe ct ct') (hn : n ≤ n') (he : e ≤ e') :
    calculateQualificationScore b l t tf ct n e ≤
      calculateQualificationScore b' l' t' tf' ct' n' e' := by
  unfold calculateQualificationScore
  exact Nat.add_le_add
    (Nat.add_le_add
      (Nat.add_le_add
        (Nat.add_le_add
          (Nat.add_le_add (Nat.add_le_add (ite_pts_mono _ hb) (ite_pts_mono _ hl))
            (ite_pts_mono _ ht))
          (ite_pts_mono _ htf))
        (ite_pts_mono _ hct))
      (min_le_min (Nat.mul_le_mul_right 5 hn) le_rfl))
    (min_le_min (Nat.div_le_div_right he) le_rfl)

/-- Claim C5: both scorers return values in `[0, 100]` (for engagement in
`[0, 10]` in the workflow variant, whose inputs are natural numbers here),
and both are monotone in each individual signal: adding a previously-absent
signal, with all other signals fixed or likewise only added, never lowers
the score. -/
theorem c5_scorers_bounded_and_monotone :
    (∀ c k, calculateScore c k ≤ 100) ∧
    (∀ c c' k k', CriteriaLe c c' → ContactLe k k' →
      calculateScore c k ≤ calculateScore c' k') ∧
    (∀ b l t tf ct n e, e ≤ 10 → calculateQualificationScore b l t tf ct n e ≤ 100) ∧
    (∀ b b' l l' t t' tf tf' ct ct' n n' e e',
      BoolLe b b' → BoolLe l l' → BoolLe t t' → BoolLe tf tf' → BoolLe ct ct' →
      n ≤ n' → e ≤ e' →
      calculateQualificationScore b l t tf ct n e ≤
        calculateQualificationScore b' l' t' tf' ct' n' e') :=
  ⟨fun _ _ => Nat.min_le_right _ _,
   fun _ _ _ _ hc hk => calculateScore_mono hc hk,
   fun b l t tf ct n e _ => calcQualification_le_100 b l t tf ct n e,
   fun _ _ _ _ _ _ _ _ _ _ _ _ _ _ hb hl ht htf hct hn he =>
     calcQualification_mono hb hl ht htf hct hn he⟩

/-- Claim C5 (witness): the bounds and monotonicity instantiated at concrete
inputs, discharging each hypothesis. -/
theorem c5_witness :
    calculateScore { budget_max := some 1000000 } {} ≤ 100 ∧
    calculateScore {} {} ≤ calculateScore { budget_max := some 1000000 } {} ∧
    calculateQualificationScore true true true true true 2 10 ≤ 100 ∧
    calculateQualificationScore false true false false false 0 2 ≤
      calculateQualificationScore true true false false false 1 2 :=
  ⟨c5_scorers_bounded_and_monotone.1 _ _,
   c5_scorers_bounded_and_monotone.2.1 _ _ _ _
     ⟨Or.inr rfl, Or.inr rfl, Or.inr rfl, Or.inr rfl, Or.inr rfl, Or.inr rfl, Or.inr rfl⟩
     ⟨Or.inl rfl, Or.inl rfl, Or.inl rfl⟩,
   c5_scorers_bounded_and_monotone.2.2.1 _ _ _ _ _ _ _ (by decide),
   c5_scorers_bounded_and_monotone.2.2.2 _ _ _ _ _ _ _ _ _ _ _ _ _ _
     (fun h => absurd h (by decide)) id id id id (by decide) le_rfl⟩

/-- Claim C1 (counterexample): a turn yielding score 55 with neither name nor
phone extracted does not set `should_create_lead`, yet `end_conversation` on
that very conversation creates a lead — with `contact.phone` absent, which
the claim says is required at end time. -/
theorem c1_counterexample :
    c1Turn.state.qualification_score = 55 ∧
    c1Turn.state.contact_info.phone = none ∧
    c1Turn.state.contact_info.name = none ∧
    c1Turn.result.should_create_lead = false ∧
    c1Turn.state.lead_id = none ∧
    (endConversation c1Turn.state "completed" (some "L1") "t").1.lead_created = true := by
  refine ⟨rfl, rfl, rfl, rfl, rfl, rfl⟩

/-- Claim C1 (amended): the per-turn gate is `score ≥ 50` and truthy name
and truthy phone, exactly as claimed; the end-time gate, however, is only
"no lead yet and stored score ≥ 50" — no contact field at all (not even
phone) is required there. -/
theorem c1_amended (st : ConvState) (m r now rsn : String) (db : List Unit)
    (cr : Option String) :
    ((processMessage st m r db).result.should_create_lead = true ↔
      50 ≤ (processMessage st m r db).result.qualification_score ∧
      pyTruthyStr (processMessage st m r db).state.contact_info.name = true ∧
      pyTruthyStr (processMessage st m r db).state.contact_info.phone = true) ∧
    ((endConversation st rsn cr now).1.lead_created = true ↔
      pyTruthyStr st.lead_id = false ∧ 50 ≤ st.qualification_score) := by
  constructor
  · simp only [processMessage]
    simp [Bool.and_eq_true, decide_eq_true_iff, and_assoc]
  · simp only [endConversation]
    simp [Bool.and_eq_true, decide_eq_true_iff, Bool.not_eq_true']

/-- Claim C6 (counterexample): calling `continue_conversation` on a stored
conversation whose status is already `completed` appends messages instead of
leaving the record unchanged or failing. -/
theorem c6_counterexample :
    c6State.status = "completed" ∧
    (continueConversation c6State "ok" "re" [] none).state.messages ≠ c6State.messages := by
  refine ⟨rfl, ?_⟩
  decide

/-- Claim C6 (amended): `continue_conversation` performs no status check:
for every retrieved conversation — completed or not — it appends the user
and assistant messages and replaces `criteria` / `contact_info` with the
fresh full-transcript extraction, leaving `status` itself untouched. -/
theorem c6_amended (st : ConvState) (m r : String) (db : List Unit) (cr : Option String) :
    (continueConversation st m r db cr).state.messages =
      st.messages ++ [⟨"user", m⟩, ⟨"assistant", r⟩] ∧
    (continueConversation st m r db cr).state.criteria =
      mergeCriteria st.criteria (extractCriteria (transcript (st.messages ++ [⟨"user", m⟩]))) ∧
    (continueConversation st m r db cr).state.contact_info =
      extractContact (transcript (st.messages ++ [⟨"user", m⟩])) ∧
    (continueConversation st m r db cr).state.status = st.status := by
  simp only [continueConversation, processMessage]
  split <;> simp

/-- Claim C7 (counterexample): a first turn whose user message is the
farewell "au revoir" (score 0, two messages) leaves
`conversation_complete = false`, so a farewell keyword is not sufficient,
contradicting the claimed three-way disjunction. -/
theorem c7_counterexample :
    userWantsToEnd "au revoir" = true ∧
    c7Turn.result.qualification_score = 0 ∧
    c7Turn.state.messages.length = 2 ∧
    c7Turn.result.conversation_complete = false ∧
    ¬ (c7Turn.result.conversation_complete = true ↔
        (70 ≤ c7Turn.result.qualification_score ∨ 20 < c7Turn.state.messages.length ∨
          userWantsToEnd "au revoir" = true)) := by
  refine ⟨rfl, rfl, rfl, rfl, ?_⟩
  intro h
  exact Bool.false_ne_true (h.2 (Or.inr (Or.inr rfl)))

/-- Claim C7 (amended): in the agent per-turn path `conversation_complete`
is exactly `score ≥ 70 ∨ message count > 20`; farewell keywords play no role
there. Farewell keywords instead drive the workflow finalize decision, which
is `(should_create_lead ∧ contact_info_complete) ∨ farewell` and involves
neither the 70-score nor the 20-message threshold. -/
theorem c7_amended (st : ConvState) (m r : String) (db : List Unit) (w : WState) :
    ((processMessage st m r db).result.conversation_complete = true ↔
      70 ≤ (processMessage st m r db).result.qualification_score ∨
        20 < (processMessage st m r db).state.messages.length) ∧
    (shouldContinueConversation w = "finalize" ↔
      (w.should_create_lead = true ∧ w.contact_info_complete = true) ∨
        userWantsToEnd w.current_user_message = true) := by
  constructor
  · simp only [processMessage]
    simp [Bool.or_eq_true, decide_eq_true_iff]
  · simp only [shouldContinueConversation]
    split
    next h =>
      simp only [Bool.or_eq_true, Bool.and_eq_true] at h
      simp [h]
    next h =>
      simp only [Bool.or_eq_true, Bool.and_eq_true] at h
      simp [h]

/-- Claim C8 (counterexample): a turn that extracts only a city — one of the
three search signals, so the claimed 2-of-3 gate is not met — still invokes
the property search in the agent path. -/
theorem c8_counterexample :
    c8Turn.searched = true ∧
    c8Turn.state.criteria.preferred_cities = some ["Casablanca"] ∧
    c8Turn.state.criteria.preferred_types = none ∧
    c8Turn.state.criteria.budget_min = none ∧
    c8Turn.state.criteria.budget_max = none ∧
    ((if c8Turn.state.criteria.budget_min.isSome || c8Turn.state.criteria.budget_max.isSome
        then 1 else 0) +
      (if c8Turn.state.criteria.preferred_cities.isSome then 1 else 0) +
      (if c8Turn.state.criteria.preferred_types.isSome then 1 else 0) : Nat) = 1 := by
  refine ⟨rfl, rfl, rfl, rfl, rfl, rfl⟩

/-- Claim C8 (amended): the claimed rule is exactly the workflow path —
search iff 2 of {budget, location, type} and (nothing shown yet or the
message asks for properties), and `_search_properties` sets
`properties_shown = true`. The agent path instead searches whenever any
criteria key is present, and its reported `properties_shown` flag merely
means at least one property matched. -/
theorem c8_amended (w : WState) (db : List Unit) (st : ConvState) (m r : String)
    (dbm : List Unit) :
    (shouldSearchProperties w = "search" ↔
      isReadyForPropertySearch w = true ∧
      (w.properties_shown = false ∨
        containsSub "propriété".data (pyLower w.current_user_message.data) = true ∨
        containsSub "bien".data (pyLower w.current_user_message.data) = true)) ∧
    ((searchProperties w db).properties_shown = true) ∧
    ((processMessage st m r dbm).searched = true ↔
      (processMessage st m r dbm).state.criteria.isEmpty = false) ∧
    ((processMessage st m r dbm).result.properties_shown = true ↔
      0 < (processMessage st m r dbm).result.matched_properties_count) := by
  refine ⟨?_, rfl, ?_, ?_⟩
  · simp only [shouldSearchProperties]
    split
    next h =>
      simp only [Bool.and_eq_true, Bool.or_eq_true, Bool.not_eq_true', or_assoc] at h
      exact iff_of_true rfl ⟨h.1, h.2⟩
    next h =>
      simp only [Bool.and_eq_true, Bool.or_eq_true, Bool.not_eq_true', or_assoc] at h
      exact iff_of_false (by decide) h
  · simp only [processMessage]
    simp
  · simp only [processMessage]
    simp [decide_eq_true_iff]

/-- Claim C10: when `end_conversation` creates a lead (no prior `lead_id`,
stored score at least 50), the new id is returned in the result, but the
conversation state keeps `lead_id = None` while `status`, `ended_at` and
`end_reason` are updated and messages/criteria/contact are untouched. -/
theorem c10_end_frame (st : ConvState) (lid rsn now : String)
    (h1 : st.lead_id = none) (h2 : 50 ≤ st.qualification_score) :
    (endConversation st rsn (some lid) now).1.lead_created = true ∧
    (endConversation st rsn (some lid) now).1.lead_id = some lid ∧
    (endConversation st rsn (some lid) now).2.lead_id = none ∧
    (endConversation st rsn (some lid) now).2.status = "completed" ∧
    (endConversation st rsn (some lid) now).2.ended_at = some now ∧
    (endConversation st rsn (some lid) now).2.end_reason = some rsn ∧
    (endConversation st rsn (some lid) now).2.messages = st.messages ∧
    (endConversation st rsn (some lid) now).2.criteria = st.criteria ∧
    (endConversation st rsn (some lid) now).2.contact_info = st.contact_info := by
  simp only [endConversation]
  simp [h1, h2, pyTruthyStr]

/-- Claim C10 (witness): the frame property instantiated on a concrete
qualified conversation without a lead. -/
theorem c10_witness :
    (endConversation c10State "completed" (some "L7") "t0").1.lead_created = true ∧
    (endConversation c10State "completed" (some "L7") "t0").1.lead_id = some "L7" ∧
    (endConversation c10State "completed" (some "L7") "t0").2.lead_id = none ∧
    (endConversation c10State "completed" (some "L7") "t0").2.status = "completed" ∧
    (endConversation c10State "completed" (some "L7") "t0").2.ended_at = some "t0" ∧
    (endConversation c10State "completed" (some "L7") "t0").2.end_reason = some "completed" ∧
    (endConversation c10State "completed" (some "L7") "t0").2.messages = c10State.messages ∧
    (endConversation c10State "completed" (some "L7") "t0").2.criteria = c10State.criteria ∧
    (endConversation c10State "completed" (some "L7") "t0").2.contact_info =
      c10State.contact_info :=
  c10_end_frame c10State "L7" "completed" "t0" rfl (by decide)

end Sabbar
